import Mathlib

/-!
Verification of the MaixCam serial receiver (src/main.py).

The Python class `MaixCamReceiver` is embedded shallowly:

* bytes are `Nat` (values < 256 on real inputs);
* the serial port is an abstract transport: a state type with a
  `read` primitive that either returns a (possibly short) byte list,
  raises `serial.SerialException`, or raises any other exception;
* one pass through the body of the `while self.is_running` loop of
  `_read_loop` (lines 108-185), including its two `except` handlers,
  is the function `iteration`;
* the loop itself is the fuel-indexed `run`;
* `get_latest_data` (lines 93-102) is the consume-on-read store.
-/

namespace RpiUARTRX

/-- The decoded application record: four unsigned 16-bit fields and an
unsigned 64-bit timestamp (dict built at src/main.py lines 167-173). -/
structure Record where
  x : Nat
  y : Nat
  w : Nat
  h : Nat
  timestamp : Nat
deriving Repr, DecidableEq

/-- Outcome of one `self.ser.read(n)` call: bytes actually delivered
(possibly fewer than `n`, the timeout case), a `serial.SerialException`
(disconnect), or any other exception. -/
inductive ReadResult where
  | ok (bs : List Nat)
  | serialExn
  | otherExn
deriving Repr, DecidableEq

/-- Abstract transport: a state type `σ` with a read primitive taking the
requested byte count. -/
structure Machine (σ : Type) where
  read : σ → Nat → ReadResult × σ

/-- The mutable state of a `MaixCamReceiver` that `_read_loop` touches:
`sync_state` (local variable, line 106), `self.latest_data` (line 60) and
`self.is_running` (line 57). -/
structure RxState where
  sync_state : Nat
  latest_data : Option Record
  is_running : Bool
deriving Repr, DecidableEq

/-- The CRC8 lookup table `_CRC8_TABLE` (src/main.py lines 27-44),
reproduced entry for entry. -/
def _CRC8_TABLE : List Nat := [
  0x00, 0x07, 0x0e, 0x09, 0x1c, 0x1b, 0x12, 0x15, 0x38, 0x3f, 0x36, 0x31, 0x24, 0x23, 0x2a, 0x2d,
  0x70, 0x77, 0x7e, 0x79, 0x6c, 0x6b, 0x62, 0x65, 0x48, 0x4f, 0x46, 0x41, 0x54, 0x53, 0x5a, 0x5d,
  0xe0, 0xe7, 0xee, 0xe9, 0xfc, 0xfb, 0xf2, 0xf5, 0xd8, 0xdf, 0xd6, 0xd1, 0xc4, 0xc3, 0xca, 0xcd,
  0x90, 0x97, 0x9e, 0x99, 0x8c, 0x8b, 0x82, 0x85, 0xa8, 0xaf, 0xa6, 0xa1, 0xb4, 0xb3, 0xba, 0xbd,
  0xc7, 0xc0, 0xc9, 0xce, 0xdb, 0xdc, 0xd5, 0xd2, 0xff, 0xf8, 0xf1, 0xf6, 0xe3, 0xe4, 0xed, 0xea,
  0xb7, 0xb0, 0xb9, 0xbe, 0xab, 0xac, 0xa5, 0xa2, 0x8f, 0x88, 0x81, 0x86, 0x93, 0x94, 0x9d, 0x9a,
  0x27, 0x20, 0x29, 0x2e, 0x3b, 0x3c, 0x35, 0x32, 0x1f, 0x18, 0x11, 0x16, 0x03, 0x04, 0x0d, 0x0a,
  0x57, 0x50, 0x59, 0x5e, 0x4b, 0x4c, 0x45, 0x42, 0x6f, 0x68, 0x61, 0x66, 0x73, 0x74, 0x7d, 0x7a,
  0x89, 0x8e, 0x87, 0x80, 0x95, 0x92, 0x9b, 0x9c, 0xb1, 0xb6, 0xbf, 0xb8, 0xad, 0xaa, 0xa3, 0xa4,
  0xf9, 0xfe, 0xf7, 0xf0, 0xe5, 0xe2, 0xeb, 0xec, 0xc1, 0xc6, 0xcf, 0xc8, 0xdd, 0xda, 0xd3, 0xd4,
  0x69, 0x6e, 0x67, 0x60, 0x75, 0x72, 0x7b, 0x7c, 0x51, 0x56, 0x5f, 0x58, 0x4d, 0x4a, 0x43, 0x44,
  0x19, 0x1e, 0x17, 0x10, 0x05, 0x02, 0x0b, 0x0c, 0x21, 0x26, 0x2f, 0x28, 0x3d, 0x3a, 0x33, 0x34,
  0x4e, 0x49, 0x40, 0x47, 0x52, 0x55, 0x5c, 0x5b, 0x76, 0x71, 0x78, 0x7f, 0x6a, 0x6d, 0x64, 0x63,
  0x3e, 0x39, 0x30, 0x37, 0x22, 0x25, 0x2c, 0x2b, 0x06, 0x01, 0x08, 0x0f, 0x1a, 0x1d, 0x14, 0x13,
  0xae, 0xa9, 0xa0, 0xa7, 0xb2, 0xb5, 0xbc, 0xbb, 0x96, 0x91, 0x98, 0x9f, 0x8a, 0x8d, 0x84, 0x83,
  0xde, 0xd9, 0xd0, 0xd7, 0xc2, 0xc5, 0xcc, 0xcb, 0xe6, 0xe1, 0xe8, 0xef, 0xfa, 0xfd, 0xf4, 0xf3]

/-- Protocol constants of src/main.py lines 19-24.  `_SOF` is the frame
start marker, `_EOF` the end marker. -/
def _SOF : List Nat := [0xAA, 0x55]

/-- The frame end marker `_EOF = b'\x55\xAA'` (src/main.py line 20). -/
def _EOF : List Nat := [0x55, 0xAA]

/-- The constant `_PAYLOAD_SIZE = struct.calcsize('<4HQ')` = 4*2 + 8 = 16. -/
def _PAYLOAD_SIZE : Nat := 16

/-- The constant `_CHECKSUM_SIZE = 1` (src/main.py line 23). -/
def _CHECKSUM_SIZE : Nat := 1

/-- The constant `_EXPECTED_PACKET_LEN = _PAYLOAD_SIZE + _CHECKSUM_SIZE` = 17. -/
def _EXPECTED_PACKET_LEN : Nat := _PAYLOAD_SIZE + _CHECKSUM_SIZE

/-- The method `_calculate_crc8` (src/main.py lines 62-67): fold the table lookup
`crc = table[crc XOR byte]` over the data, starting from 0. -/
def _calculate_crc8 (data_bytes : List Nat) : Nat :=
  data_bytes.foldl (fun crc b => _CRC8_TABLE.getD (crc ^^^ b) 0) 0

/-- Little-endian byte list to natural number (the reading direction of
`struct.unpack('<4HQ', ...)`). -/
def le_bytes_to_nat : List Nat → Nat
  | [] => 0
  | b :: rest => b + 256 * le_bytes_to_nat rest

/-- The call `struct.unpack('<4HQ', payload_bytes)` followed by the dict build of
src/main.py lines 165-173: four little-endian u16 fields then one
little-endian u64 field.  The caller guarantees a 16-byte input. -/
def unpack_payload (bs : List Nat) : Record :=
  { x := le_bytes_to_nat (bs.take 2)
  , y := le_bytes_to_nat ((bs.drop 2).take 2)
  , w := le_bytes_to_nat ((bs.drop 4).take 2)
  , h := le_bytes_to_nat ((bs.drop 6).take 2)
  , timestamp := le_bytes_to_nat ((bs.drop 8).take 8) }

/-- The method `get_latest_data` (src/main.py lines 93-102): return the held value
and clear the slot, as one step (the body of the `with self.lock` block). -/
def get_latest_data (st : RxState) : Option Record × RxState :=
  (st.latest_data, { st with latest_data := none })

/-- The `if sync_state == 2` block of `_read_loop` (src/main.py lines
123-179), together with the two `except` handlers of lines 181-185 for
exceptions raised by the reads inside it: read the length byte, validate
the length, read body plus trailer in one call, validate completeness and
trailer, verify the checksum, on success store the unpacked record; every
verdict path ends with `sync_state = 0`.  A `serial.SerialException`
clears `is_running` (line 183); any other exception leaves the state as
it stands (lines 184-185 only print). -/
def read_body {σ : Type} (m : Machine σ) (st : RxState) (tp : σ) :
    RxState × σ :=
  match m.read tp 1 with
  | (ReadResult.serialExn, tp1) => ({ st with is_running := false }, tp1)
  | (ReadResult.otherExn, tp1) => (st, tp1)
  | (ReadResult.ok len_byte, tp1) =>
    if len_byte = [] then ({ st with sync_state := 0 }, tp1)
    else
      let packet_len := len_byte.headD 0
      if packet_len ≠ _EXPECTED_PACKET_LEN then
        ({ st with sync_state := 0 }, tp1)
      else
        match m.read tp1 (packet_len + _EOF.length) with
        | (ReadResult.serialExn, tp2) => ({ st with is_running := false }, tp2)
        | (ReadResult.otherExn, tp2) => (st, tp2)
        | (ReadResult.ok full_packet_data, tp2) =>
          if full_packet_data.length ≠ packet_len + _EOF.length then
            ({ st with sync_state := 0 }, tp2)
          else
            let packet_data := full_packet_data.take packet_len
            let eof_data := full_packet_data.drop packet_len
            if eof_data ≠ _EOF then ({ st with sync_state := 0 }, tp2)
            else
              let payload_bytes :=
                packet_data.take (packet_data.length - _CHECKSUM_SIZE)
              let received_checksum :=
                packet_data.getD (packet_data.length - _CHECKSUM_SIZE) 0
              let calculated_checksum := _calculate_crc8 payload_bytes
              if received_checksum = calculated_checksum then
                ({ st with
                    latest_data := some (unpack_payload payload_bytes)
                    sync_state := 0 }, tp2)
              else
                ({ st with sync_state := 0 }, tp2)

/-- One pass through the body of the `while self.is_running` loop of
`_read_loop` (src/main.py lines 108-185).  In state 0 a single byte is
read and compared with `_SOF[:1]`; in state 1 with `_SOF[1:]`, falling
through into the `if sync_state == 2` block on a match (the Python `if`
at line 123 runs in the same iteration).  An iteration that starts with
`sync_state` already 2 (possible after a caught generic exception) goes
straight to the body block.  Exceptions raised by the single-byte reads
are handled exactly as by the handlers of lines 181-185. -/
def iteration {σ : Type} (m : Machine σ) (st : RxState) (tp : σ) :
    RxState × σ :=
  if st.sync_state = 0 then
    match m.read tp 1 with
    | (ReadResult.serialExn, tp1) => ({ st with is_running := false }, tp1)
    | (ReadResult.otherExn, tp1) => (st, tp1)
    | (ReadResult.ok byte, tp1) =>
      if byte = _SOF.take 1 then ({ st with sync_state := 1 }, tp1)
      else (st, tp1)
  else if st.sync_state = 1 then
    match m.read tp 1 with
    | (ReadResult.serialExn, tp1) => ({ st with is_running := false }, tp1)
    | (ReadResult.otherExn, tp1) => (st, tp1)
    | (ReadResult.ok byte, tp1) =>
      if byte = _SOF.drop 1 then read_body m { st with sync_state := 2 } tp1
      else ({ st with sync_state := 0 }, tp1)
  else if st.sync_state = 2 then read_body m st tp
  else (st, tp)

/-- The `while self.is_running` loop of `_read_loop`, indexed by fuel:
each unit of fuel is at most one iteration; the loop body only runs
while `is_running` holds (src/main.py line 108). -/
def run {σ : Type} (m : Machine σ) : Nat → RxState → σ → RxState × σ
  | 0, st, tp => (st, tp)
  | fuel + 1, st, tp =>
    if st.is_running then
      run m fuel (iteration m st tp).1 (iteration m st tp).2
    else (st, tp)

/-- The faithful transport of a healthy serial line delivering a known
byte stream: `read(n)` returns the next `min n (length)` bytes — a short
or empty return models the 1-second timeout at end of data. -/
def listRead (s : List Nat) (n : Nat) : ReadResult × List Nat :=
  (ReadResult.ok (s.take n), s.drop n)

/-- The byte-stream transport as a `Machine`. -/
def listMachine : Machine (List Nat) := ⟨listRead⟩

/-- A scripted transport for fault injection: each read consumes the next
scripted outcome (clipped to the requested count), so timeouts and
exceptions can occur at any chosen read. -/
def scriptRead (s : List ReadResult) (n : Nat) :
    ReadResult × List ReadResult :=
  match s with
  | [] => (ReadResult.ok [], [])
  | ReadResult.ok bs :: rest => (ReadResult.ok (bs.take n), rest)
  | r :: rest => (r, rest)

/-- The scripted transport as a `Machine`. -/
def scriptMachine : Machine (List ReadResult) := ⟨scriptRead⟩

/-- The receiver state right after `start()`: `sync_state = 0`
(src/main.py line 106), no data yet (line 60), running (line 73). -/
def initState : RxState :=
  { sync_state := 0, latest_data := none, is_running := true }

/-- Natural number to `w` little-endian bytes (the writing direction of
`struct.pack('<4HQ', ...)` on the sender side; wire format of spec §6). -/
def nat_to_le_bytes : Nat → Nat → List Nat
  | _, 0 => []
  | n, wi + 1 => n % 256 :: nat_to_le_bytes (n / 256) wi

/-- Modelled from the spec: the sender-side payload encoding (the MaixCam
Pro sender script is not part of this repository).  Spec §6: payload =
4 little-endian u16 fields then one little-endian u64, 16 bytes. -/
def encode_payload (r : Record) : List Nat :=
  nat_to_le_bytes r.x 2 ++ nat_to_le_bytes r.y 2 ++ nat_to_le_bytes r.w 2 ++
  nat_to_le_bytes r.h 2 ++ nat_to_le_bytes r.timestamp 8

/-- Modelled from the spec: the sender-side frame encoding, spec §6:
`0xAA 0x55 || LEN=17 || payload(16) || CRC-8(payload) || 0x55 0xAA`,
22 bytes in all, with the checksum freshly computed by the same CRC-8. -/
def encode_frame (r : Record) : List Nat :=
  _SOF ++ [_EXPECTED_PACKET_LEN] ++ encode_payload r ++
  [_calculate_crc8 (encode_payload r)] ++ _EOF


theorem run_succ {σ : Type} (m : Machine σ) (f : Nat) (st : RxState) (tp : σ) :
    run m (f + 1) st tp =
      if st.is_running then run m f (iteration m st tp).1 (iteration m st tp).2
      else (st, tp) := rfl

theorem run_stopped {σ : Type} (m : Machine σ) (f : Nat) (st : RxState) (tp : σ)
    (h : st.is_running = false) : run m f st tp = (st, tp) := by
  cases f with
  | zero => rfl
  | succ f => rw [run_succ, h]; simp

theorem run_add {σ : Type} (m : Machine σ) (f1 f2 : Nat) (st : RxState) (tp : σ) :
    run m (f1 + f2) st tp = run m f2 (run m f1 st tp).1 (run m f1 st tp).2 := by
  induction f1 generalizing st tp with
  | zero => rw [Nat.zero_add]; rfl
  | succ f ih =>
    cases hr : st.is_running with
    | false =>
      rw [run_stopped m (f + 1 + f2) st tp hr, run_stopped m (f + 1) st tp hr]
      exact (run_stopped m f2 st tp hr).symm
    | true =>
      rw [show f + 1 + f2 = (f + f2) + 1 by omega, run_succ, run_succ, hr]
      simp only [if_true]
      exact ih (iteration m st tp).1 (iteration m st tp).2

theorem le_nat_round (w n : Nat) (h : n < 256 ^ w) :
    le_bytes_to_nat (nat_to_le_bytes n w) = n := by
  induction w generalizing n with
  | zero =>
    simp only [nat_to_le_bytes, le_bytes_to_nat]
    omega
  | succ w ih =>
    simp only [nat_to_le_bytes, le_bytes_to_nat]
    rw [ih (n / 256) (Nat.div_lt_of_lt_mul (by rw [pow_succ] at h; omega))]
    omega

theorem unpack_encode (x y w h t : Nat) (hx : x < 2 ^ 16) (hy : y < 2 ^ 16)
    (hw : w < 2 ^ 16) (hh : h < 2 ^ 16) (ht : t < 2 ^ 64) :
    unpack_payload (encode_payload ⟨x, y, w, h, t⟩) = ⟨x, y, w, h, t⟩ := by
  have e1 : (encode_payload ⟨x, y, w, h, t⟩).take 2 = nat_to_le_bytes x 2 := rfl
  have e2 : ((encode_payload ⟨x, y, w, h, t⟩).drop 2).take 2 = nat_to_le_bytes y 2 := rfl
  have e3 : ((encode_payload ⟨x, y, w, h, t⟩).drop 4).take 2 = nat_to_le_bytes w 2 := rfl
  have e4 : ((encode_payload ⟨x, y, w, h, t⟩).drop 6).take 2 = nat_to_le_bytes h 2 := rfl
  have e5 : ((encode_payload ⟨x, y, w, h, t⟩).drop 8).take 8 = nat_to_le_bytes t 8 := rfl
  simp only [unpack_payload, e1, e2, e3, e4, e5, Record.mk.injEq]
  refine ⟨le_nat_round 2 x (by norm_num at hx ⊢; omega),
          le_nat_round 2 y (by norm_num at hy ⊢; omega),
          le_nat_round 2 w (by norm_num at hw ⊢; omega),
          le_nat_round 2 h (by norm_num at hh ⊢; omega),
          le_nat_round 8 t (by norm_num at ht ⊢; omega)⟩


theorem sof_step1 (st : RxState) (s : List Nat) (h0 : st.sync_state = 0) :
    iteration listMachine st (0xAA :: s) = ({ st with sync_state := 1 }, s) := by
  simp [iteration, listMachine, listRead, h0, _SOF]

theorem sof_step2 (st : RxState) (s : List Nat) (h1 : st.sync_state = 1) :
    iteration listMachine st (0x55 :: s) =
      read_body listMachine { st with sync_state := 2 } s := by
  simp [iteration, listMachine, listRead, h1, _SOF]

theorem read_body_frame (st : RxState) (p : List Nat) (c : Nat) (rest : List Nat)
    (hp : p.length = 16) :
    read_body listMachine st (17 :: (p ++ c :: (_EOF ++ rest))) =
      (if c = _calculate_crc8 p
       then ({ st with latest_data := some (unpack_payload p), sync_state := 0 }, rest)
       else ({ st with sync_state := 0 }, rest)) := by
  have hlen : (p ++ c :: _EOF).length = 19 := by simp [_EOF, hp]
  have htake : (p ++ c :: (_EOF ++ rest)).take 19 = p ++ c :: _EOF := by
    rw [show p ++ c :: (_EOF ++ rest) = (p ++ c :: _EOF) ++ rest by simp]
    exact List.take_left' hlen
  have hdrop : (p ++ c :: (_EOF ++ rest)).drop 19 = rest := by
    rw [show p ++ c :: (_EOF ++ rest) = (p ++ c :: _EOF) ++ rest by simp]
    exact List.drop_left' hlen
  have hsplit : p ++ c :: _EOF = (p ++ [c]) ++ _EOF := by simp
  have hlen17 : (p ++ [c]).length = 17 := by simp [hp]
  have htake17 : (p ++ c :: _EOF).take 17 = p ++ [c] := by
    rw [hsplit]; exact List.take_left' hlen17
  have hdrop17 : (p ++ c :: _EOF).drop 17 = _EOF := by
    rw [hsplit]; exact List.drop_left' hlen17
  have htake16 : (p ++ [c]).take 16 = p := List.take_left' hp
  have hgetD : (p ++ [c]).getD 16 0 = c := by
    rw [List.getD_append_right p [c] 0 16 (le_of_eq hp), hp]; simp
  simp only [read_body, listMachine, listRead]
  rw [show List.take 1 (17 :: (p ++ c :: (_EOF ++ rest))) = [17] from rfl,
      show List.drop 1 (17 :: (p ++ c :: (_EOF ++ rest))) = p ++ c :: (_EOF ++ rest) from rfl,
      show ([17] : List Nat).headD 0 = 17 from rfl,
      show (17 : Nat) + _EOF.length = 19 from rfl,
      htake, hdrop, htake17, hdrop17, hlen, hlen17,
      show (17 : Nat) - _CHECKSUM_SIZE = 16 from rfl,
      htake16, hgetD]
  simp [_EXPECTED_PACKET_LEN, _PAYLOAD_SIZE, _CHECKSUM_SIZE]


theorem read_body_bad_len (st : RxState) (n : Nat) (rest : List Nat) (hn : n ≠ 17) :
    read_body listMachine st (n :: rest) = ({ st with sync_state := 0 }, rest) := by
  simp only [read_body, listMachine, listRead]
  rw [show List.take 1 (n :: rest) = [n] from rfl,
      show List.drop 1 (n :: rest) = rest from rfl,
      show ([n] : List Nat).headD 0 = n from rfl]
  simp [_EXPECTED_PACKET_LEN, _PAYLOAD_SIZE, _CHECKSUM_SIZE, hn]

theorem run_two_frame (st : RxState) (p : List Nat) (c : Nat) (rest : List Nat)
    (hp : p.length = 16) (h0 : st.sync_state = 0) (hr : st.is_running = true) :
    run listMachine 2 st (0xAA :: 0x55 :: 17 :: (p ++ c :: (_EOF ++ rest))) =
      (if c = _calculate_crc8 p
       then ({ st with latest_data := some (unpack_payload p), sync_state := 0 }, rest)
       else ({ st with sync_state := 0 }, rest)) := by
  rw [show (2 : Nat) = 1 + 1 from rfl, run_succ, hr]
  simp only [if_true]
  rw [sof_step1 st _ h0, run_succ,
      show ({ st with sync_state := 1 } : RxState).is_running = st.is_running from rfl, hr]
  simp only [if_true]
  rw [sof_step2 _ _ rfl, read_body_frame _ p c rest hp]
  by_cases hc : c = _calculate_crc8 p <;> simp [hc, run]

theorem run_two_bad_len (st : RxState) (n : Nat) (rest : List Nat) (hn : n ≠ 17)
    (h0 : st.sync_state = 0) (hr : st.is_running = true) :
    run listMachine 2 st (0xAA :: 0x55 :: n :: rest) =
      ({ st with sync_state := 0 }, rest) := by
  rw [show (2 : Nat) = 1 + 1 from rfl, run_succ, hr]
  simp only [if_true]
  rw [sof_step1 st _ h0, run_succ,
      show ({ st with sync_state := 1 } : RxState).is_running = st.is_running from rfl, hr]
  simp only [if_true]
  rw [sof_step2 _ _ rfl, read_body_bad_len _ n rest hn]
  simp [run]

theorem skip_garbage (st : RxState) (g s : List Nat) (h0 : st.sync_state = 0)
    (hr : st.is_running = true) (hg : ∀ b ∈ g, b ≠ 0xAA) :
    run listMachine g.length st (g ++ s) = (st, s) := by
  induction g with
  | nil => rfl
  | cons b g ih =>
    have hb : b ≠ 0xAA := hg b (List.mem_cons_self b g)
    have hstep : iteration listMachine st (b :: (g ++ s)) = (st, g ++ s) := by
      simp [iteration, listMachine, listRead, h0, _SOF, hb]
    rw [show (b :: g).length = g.length + 1 from rfl, run_succ, hr]
    simp only [if_true, List.cons_append]
    rw [hstep]
    exact ih (fun b2 hb2 => hg b2 (List.mem_cons_of_mem b hb2))

theorem frame_publishes (st : RxState) (x y w h t : Nat) (h0 : st.sync_state = 0)
    (hr : st.is_running = true) (hx : x < 2 ^ 16) (hy : y < 2 ^ 16) (hw : w < 2 ^ 16)
    (hh : h < 2 ^ 16) (ht : t < 2 ^ 64) :
    run listMachine 2 st (encode_frame ⟨x, y, w, h, t⟩) =
      ({ st with latest_data := some (⟨x, y, w, h, t⟩ : Record), sync_state := 0 }, []) := by
  have hfr : encode_frame ⟨x, y, w, h, t⟩ =
      0xAA :: 0x55 :: 17 :: (encode_payload ⟨x, y, w, h, t⟩ ++
        _calculate_crc8 (encode_payload ⟨x, y, w, h, t⟩) :: (_EOF ++ [])) := by
    simp [encode_frame, _SOF, _EXPECTED_PACKET_LEN, _PAYLOAD_SIZE, _CHECKSUM_SIZE]
  rw [hfr, run_two_frame st (encode_payload ⟨x, y, w, h, t⟩)
        (_calculate_crc8 (encode_payload ⟨x, y, w, h, t⟩)) [] rfl h0 hr,
      if_pos rfl, unpack_encode x y w h t hx hy hw hh ht]

theorem read_body_resets (st : RxState) (s : List Nat) :
    ((read_body listMachine st s).1).sync_state = 0 := by
  simp only [read_body, listMachine, listRead]
  split_ifs <;> simp

theorem iteration_sync1_resets (st : RxState) (s : List Nat) (h1 : st.sync_state = 1) :
    ((iteration listMachine st s).1).sync_state = 0 := by
  simp only [iteration, listMachine, listRead, h1]
  norm_num
  split_ifs
  · exact read_body_resets _ _
  · simp

theorem iteration_sync2_resets (st : RxState) (s : List Nat) (h2 : st.sync_state = 2) :
    ((iteration listMachine st s).1).sync_state = 0 := by
  simp only [iteration, h2]
  norm_num
  exact read_body_resets _ _


/-- Claim C1: for every record whose four fields are unsigned 16-bit and whose
timestamp is unsigned 64-bit, encoding it per the wire format gives 22 bytes;
feeding them to the synchronizer from its initial state publishes exactly one
record equal to the original, and a subsequent take returns exactly that
record and empties the slot. -/
theorem claim_C1_valid_frame_roundtrip (r : Record)
    (hx : r.x < 2 ^ 16) (hy : r.y < 2 ^ 16) (hw : r.w < 2 ^ 16) (hh : r.h < 2 ^ 16)
    (ht : r.timestamp < 2 ^ 64) :
    (encode_frame r).length = 22 ∧
    run listMachine 2 initState (encode_frame r) =
      ({ sync_state := 0, latest_data := some r, is_running := true }, []) ∧
    get_latest_data (run listMachine 2 initState (encode_frame r)).1 =
      (some r, { sync_state := 0, latest_data := none, is_running := true }) := by
  obtain ⟨x, y, w, h, t⟩ := r
  have hrun := frame_publishes initState x y w h t rfl rfl hx hy hw hh ht
  refine ⟨rfl, hrun, ?_⟩
  rw [hrun]
  rfl

/-- Witness for C1 at the spec §8 example record. -/
theorem claim_C1_valid_frame_roundtrip_witness :
    ((100 : Nat) < 2 ^ 16 ∧ (1700000000000 : Nat) < 2 ^ 64) ∧
    ((encode_frame ⟨100, 200, 50, 60, 1700000000000⟩).length = 22 ∧
     run listMachine 2 initState (encode_frame ⟨100, 200, 50, 60, 1700000000000⟩) =
       ({ sync_state := 0, latest_data := some ⟨100, 200, 50, 60, 1700000000000⟩,
          is_running := true }, []) ∧
     get_latest_data (run listMachine 2 initState
         (encode_frame ⟨100, 200, 50, 60, 1700000000000⟩)).1 =
       (some ⟨100, 200, 50, 60, 1700000000000⟩,
        { sync_state := 0, latest_data := none, is_running := true })) :=
  ⟨⟨by decide, by decide⟩,
   claim_C1_valid_frame_roundtrip ⟨100, 200, 50, 60, 1700000000000⟩
     (by decide) (by decide) (by decide) (by decide) (by decide)⟩

/-- Claim C2: take returns the held value and clears the slot in one step, so
an immediately following take with no intervening publish returns empty. -/
theorem claim_C2_take_consumes (st : RxState) :
    get_latest_data st = (st.latest_data, { st with latest_data := none }) ∧
    (get_latest_data (get_latest_data st).2).1 = none :=
  ⟨rfl, rfl⟩

/-- Claim C3: a frame whose checksum byte does not match the CRC-8 of its
payload publishes nothing, leaves the slot unchanged and returns the machine
to the initial search state; a valid frame fed immediately afterwards is
still decoded and published. -/
theorem claim_C3_checksum_mismatch_discards (L : Option Record) (p : List Nat) (c : Nat)
    (hp : p.length = 16) (hc : c ≠ _calculate_crc8 p) (r : Record)
    (hx : r.x < 2 ^ 16) (hy : r.y < 2 ^ 16) (hw : r.w < 2 ^ 16) (hh : r.h < 2 ^ 16)
    (ht : r.timestamp < 2 ^ 64) :
    run listMachine 2 ⟨0, L, true⟩ (_SOF ++ [17] ++ p ++ [c] ++ _EOF) =
      (⟨0, L, true⟩, []) ∧
    run listMachine (2 + 2) ⟨0, L, true⟩
        ((_SOF ++ [17] ++ p ++ [c] ++ _EOF) ++ encode_frame r) =
      (⟨0, some r, true⟩, []) := by
  obtain ⟨x, y, w, h, t⟩ := r
  have hshape1 : _SOF ++ [17] ++ p ++ [c] ++ _EOF =
      0xAA :: 0x55 :: 17 :: (p ++ c :: (_EOF ++ [])) := by simp [_SOF]
  have hshape2 : (_SOF ++ [17] ++ p ++ [c] ++ _EOF) ++ encode_frame ⟨x, y, w, h, t⟩ =
      0xAA :: 0x55 :: 17 :: (p ++ c :: (_EOF ++ encode_frame ⟨x, y, w, h, t⟩)) := by
    simp [_SOF]
  have h1 : run listMachine 2 (⟨0, L, true⟩ : RxState)
      (0xAA :: 0x55 :: 17 :: (p ++ c :: (_EOF ++ encode_frame ⟨x, y, w, h, t⟩))) =
      ((⟨0, L, true⟩ : RxState), encode_frame ⟨x, y, w, h, t⟩) := by
    rw [run_two_frame _ p c _ hp rfl rfl, if_neg hc]
  have h3 : run listMachine 2 (⟨0, L, true⟩ : RxState) (encode_frame ⟨x, y, w, h, t⟩) =
      ((⟨0, some ⟨x, y, w, h, t⟩, true⟩ : RxState), []) :=
    frame_publishes _ x y w h t rfl rfl hx hy hw hh ht
  constructor
  · rw [hshape1, run_two_frame _ p c [] hp rfl rfl, if_neg hc]
  · rw [hshape2]
    simp only [run_add, h1, h3]

/-- Witness for C3: an all-zero payload with wrong checksum byte 5, followed
by a valid frame. -/
theorem claim_C3_checksum_mismatch_discards_witness :
    (([0, 0, 0, 0, 0, 0, 0, 0, 0, 0, 0, 0, 0, 0, 0, 0] : List Nat).length = 16 ∧
     (5 : Nat) ≠ _calculate_crc8 [0, 0, 0, 0, 0, 0, 0, 0, 0, 0, 0, 0, 0, 0, 0, 0]) ∧
    run listMachine 2 ⟨0, none, true⟩
        (_SOF ++ [17] ++ [0, 0, 0, 0, 0, 0, 0, 0, 0, 0, 0, 0, 0, 0, 0, 0] ++ [5] ++ _EOF) =
      (⟨0, none, true⟩, []) ∧
    run listMachine (2 + 2) ⟨0, none, true⟩
        ((_SOF ++ [17] ++ [0, 0, 0, 0, 0, 0, 0, 0, 0, 0, 0, 0, 0, 0, 0, 0] ++ [5] ++ _EOF) ++
          encode_frame ⟨100, 200, 50, 60, 1700000000000⟩) =
      (⟨0, some ⟨100, 200, 50, 60, 1700000000000⟩, true⟩, []) :=
  ⟨⟨by decide, by decide⟩,
   claim_C3_checksum_mismatch_discards none _ 5 (by decide) (by decide)
     ⟨100, 200, 50, 60, 1700000000000⟩ (by decide) (by decide) (by decide) (by decide)
     (by decide)⟩

/-- Counterexample to claim C4: a generic (non-transport) exception raised by
the read while the machine awaits the second marker byte is caught by the
handler of src/main.py lines 184-185, which does not reset `sync_state`: the
machine stays in phase 1 instead of returning to the initial phase 0. -/
theorem claim_C4_counterexample :
    iteration scriptMachine ⟨1, none, true⟩ [ReadResult.otherExn] = (⟨1, none, true⟩, []) ∧
    ((iteration scriptMachine ⟨1, none, true⟩ [ReadResult.otherExn]).1).sync_state ≠ 0 :=
  ⟨rfl, by decide⟩

/-- Claim C4 as amended: every frame attempt that reaches a verdict — success,
framing failure or checksum failure — ends with `sync_state` reset to 0 (from
the body phase and from the second-marker phase alike); but an unexpected
non-transport error caught during the iteration does NOT reset the state: the
current phase (1 or 2, possibly mid-frame) is retained into the next
iteration. -/
theorem claim_C4_reset_amended :
    (∀ (st : RxState) (s : List Nat), st.sync_state = 2 →
        ((iteration listMachine st s).1).sync_state = 0) ∧
    (∀ (st : RxState) (s : List Nat), st.sync_state = 1 →
        ((iteration listMachine st s).1).sync_state = 0) ∧
    iteration scriptMachine ⟨1, none, true⟩ [ReadResult.otherExn] = (⟨1, none, true⟩, []) ∧
    iteration scriptMachine ⟨2, none, true⟩ [ReadResult.otherExn] = (⟨2, none, true⟩, []) :=
  ⟨iteration_sync2_resets, iteration_sync1_resets, rfl, rfl⟩

/-- Witness for the amended C4 at concrete states and streams. -/
theorem claim_C4_reset_amended_witness :
    ((iteration listMachine ⟨2, none, true⟩ [1, 2, 3]).1).sync_state = 0 ∧
    ((iteration listMachine ⟨1, none, true⟩ [18]).1).sync_state = 0 :=
  ⟨claim_C4_reset_amended.1 ⟨2, none, true⟩ [1, 2, 3] rfl,
   claim_C4_reset_amended.2.1 ⟨1, none, true⟩ [18] rfl⟩

/-- Claim C5: in the awaiting-second-marker phase, a byte that is not 0x55
sends the machine back to phase 0 and is fully consumed — even a 0xAA byte is
not re-tested as a first-marker candidate (the next read starts after it). -/
theorem claim_C5_second_marker_failure_drops_byte (st : RxState) (b : Nat) (s : List Nat)
    (h1 : st.sync_state = 1) (hb : b ≠ 0x55) :
    iteration listMachine st (b :: s) = ({ st with sync_state := 0 }, s) := by
  simp [iteration, listMachine, listRead, h1, _SOF, hb]

/-- Witness for C5 with the byte 0xAA itself failing the second-marker test. -/
theorem claim_C5_second_marker_failure_drops_byte_witness :
    (0xAA : Nat) ≠ 0x55 ∧
    iteration listMachine ⟨1, none, true⟩ [0xAA, 7] = (⟨0, none, true⟩, [7]) :=
  ⟨by decide,
   claim_C5_second_marker_failure_drops_byte ⟨1, none, true⟩ 0xAA [7] rfl (by decide)⟩


/-- Claim C7: after the two start-marker bytes, a length byte different from
17 aborts the attempt — nothing is published, the length byte is consumed and
the machine returns to the initial marker search; garbage bytes that follow
are discarded one at a time until the next valid start marker, after which a
valid frame is decoded and published normally. -/
theorem claim_C7_bad_length_resync (L : Option Record) (n : Nat) (g : List Nat) (r : Record)
    (hn : n ≠ 17) (hg : ∀ b ∈ g, b ≠ 0xAA)
    (hx : r.x < 2 ^ 16) (hy : r.y < 2 ^ 16) (hw : r.w < 2 ^ 16) (hh : r.h < 2 ^ 16)
    (ht : r.timestamp < 2 ^ 64) :
    run listMachine 2 ⟨0, L, true⟩ [0xAA, 0x55, n] = (⟨0, L, true⟩, []) ∧
    run listMachine (2 + (g.length + 2)) ⟨0, L, true⟩
        (0xAA :: 0x55 :: n :: (g ++ encode_frame r)) = (⟨0, some r, true⟩, []) := by
  obtain ⟨x, y, w, h, t⟩ := r
  have h1 : run listMachine 2 (⟨0, L, true⟩ : RxState)
      (0xAA :: 0x55 :: n :: (g ++ encode_frame ⟨x, y, w, h, t⟩)) =
      ((⟨0, L, true⟩ : RxState), g ++ encode_frame ⟨x, y, w, h, t⟩) := by
    rw [run_two_bad_len _ n _ hn rfl rfl]
  have h2 : run listMachine g.length (⟨0, L, true⟩ : RxState)
      (g ++ encode_frame ⟨x, y, w, h, t⟩) =
      ((⟨0, L, true⟩ : RxState), encode_frame ⟨x, y, w, h, t⟩) :=
    skip_garbage _ g _ rfl rfl hg
  have h3 : run listMachine 2 (⟨0, L, true⟩ : RxState) (encode_frame ⟨x, y, w, h, t⟩) =
      ((⟨0, some ⟨x, y, w, h, t⟩, true⟩ : RxState), []) :=
    frame_publishes _ x y w h t rfl rfl hx hy hw hh ht
  constructor
  · rw [run_two_bad_len _ n [] hn rfl rfl]
  · simp only [run_add, h1, h2, h3]

/-- Witness for C7: length byte 5, three garbage bytes, then a valid frame. -/
theorem claim_C7_bad_length_resync_witness :
    ((5 : Nat) ≠ 17 ∧ ∀ b ∈ ([1, 2, 3] : List Nat), b ≠ 0xAA) ∧
    run listMachine 2 ⟨0, none, true⟩ [0xAA, 0x55, 5] = (⟨0, none, true⟩, []) ∧
    run listMachine (2 + (([1, 2, 3] : List Nat).length + 2)) ⟨0, none, true⟩
        (0xAA :: 0x55 :: 5 :: ([1, 2, 3] ++ encode_frame ⟨100, 200, 50, 60, 1700000000000⟩)) =
      (⟨0, some ⟨100, 200, 50, 60, 1700000000000⟩, true⟩, []) :=
  ⟨⟨by decide, by decide⟩,
   claim_C7_bad_length_resync none 5 [1, 2, 3] ⟨100, 200, 50, 60, 1700000000000⟩
     (by decide) (by decide) (by decide) (by decide) (by decide) (by decide) (by decide)⟩

/-- Claim C8: a `serial.SerialException` raised by any of the four read sites
clears `is_running` and is not treated as a per-frame failure; with the flag
cleared, the loop performs no further iteration (no further read or frame
attempt), for any transport. -/
theorem claim_C8_serial_error_fatal :
    (∀ (st : RxState) (script : List ReadResult), st.sync_state ≤ 2 →
        iteration scriptMachine st (ReadResult.serialExn :: script) =
          ({ st with is_running := false }, script)) ∧
    (∀ (st : RxState) (script : List ReadResult), st.sync_state = 1 →
        iteration scriptMachine st
            (ReadResult.ok [0x55] :: ReadResult.ok [17] :: ReadResult.serialExn :: script) =
          ({ st with sync_state := 2, is_running := false }, script)) ∧
    (∀ {σ : Type} (m : Machine σ) (f : Nat) (st : RxState) (tp : σ),
        st.is_running = false → run m f st tp = (st, tp)) := by
  refine ⟨?_, ?_, ?_⟩
  · intro st script hle
    obtain ⟨ss, L, ru⟩ := st
    simp only at hle
    have h3 : ss = 0 ∨ ss = 1 ∨ ss = 2 := by omega
    rcases h3 with rfl | rfl | rfl <;> rfl
  · intro st script h1
    obtain ⟨ss, L, ru⟩ := st
    simp only at h1
    subst h1
    rfl
  · intro σ m f st tp hstop
    exact run_stopped m f st tp hstop

/-- Witness for C8: a disconnect during the body read of an attempt, and the
loop thereafter refusing to run on a fresh stream. -/
theorem claim_C8_serial_error_fatal_witness :
    iteration scriptMachine ⟨0, none, true⟩ [ReadResult.serialExn] =
      (⟨0, none, false⟩, []) ∧
    iteration scriptMachine ⟨1, none, true⟩
        [ReadResult.ok [0x55], ReadResult.ok [17], ReadResult.serialExn] =
      (⟨2, none, false⟩, []) ∧
    run listMachine 5 ⟨2, none, false⟩ [0xAA, 0x55] = (⟨2, none, false⟩, [0xAA, 0x55]) :=
  ⟨claim_C8_serial_error_fatal.1 ⟨0, none, true⟩ [] (by decide),
   claim_C8_serial_error_fatal.2.1 ⟨1, none, true⟩ [] rfl,
   claim_C8_serial_error_fatal.2.2 listMachine 5 ⟨2, none, false⟩ [0xAA, 0x55] rfl⟩

/-- Claim C9: a properly framed valid frame whose 16-byte payload contains
the start-marker byte pair 0xAA 0x55 somewhere inside is still decoded and
published correctly: the body is consumed as one block, so the embedded
marker bytes are never re-interpreted as a new frame start. -/
theorem claim_C9_marker_bytes_inside_payload (r : Record)
    (hx : r.x < 2 ^ 16) (hy : r.y < 2 ^ 16) (hw : r.w < 2 ^ 16) (hh : r.h < 2 ^ 16)
    (ht : r.timestamp < 2 ^ 64)
    (hemb : ∃ l1 l2, encode_payload r = l1 ++ [0xAA, 0x55] ++ l2) :
    run listMachine 2 initState (encode_frame r) =
      ({ sync_state := 0, latest_data := some r, is_running := true }, []) := by
  obtain ⟨x, y, w, h, t⟩ := r
  exact frame_publishes initState x y w h t rfl rfl hx hy hw hh ht

/-- Witness for C9: x = 0x55AA puts bytes 0xAA 0x55 at the front of the
payload. -/
theorem claim_C9_marker_bytes_inside_payload_witness :
    (∃ l1 l2, encode_payload ⟨0x55AA, 0, 0, 0, 7⟩ = l1 ++ [0xAA, 0x55] ++ l2) ∧
    run listMachine 2 initState (encode_frame ⟨0x55AA, 0, 0, 0, 7⟩) =
      ({ sync_state := 0, latest_data := some ⟨0x55AA, 0, 0, 0, 7⟩,
         is_running := true }, []) :=
  ⟨⟨[], [0, 0, 0, 0, 0, 0, 0, 0, 7, 0, 0, 0, 0, 0, 0, 0].drop 2, by decide⟩,
   claim_C9_marker_bytes_inside_payload ⟨0x55AA, 0, 0, 0, 7⟩
     (by decide) (by decide) (by decide) (by decide) (by decide)
     ⟨[], [0, 0, 0, 0, 0, 0, 0, 0, 7, 0, 0, 0, 0, 0, 0, 0].drop 2, by decide⟩⟩

/-- Claim C10: a single-byte read returning zero bytes (timeout) during
marker search never advances the machine toward body acquisition: in phase 0
it stays in phase 0, and in phase 1 the empty result fails the second-marker
comparison and resets the machine to phase 0. -/
theorem claim_C10_empty_read_during_marker_search (L : Option Record) (ru : Bool)
    (script : List ReadResult) :
    iteration scriptMachine ⟨0, L, ru⟩ (ReadResult.ok [] :: script) =
      (⟨0, L, ru⟩, script) ∧
    iteration scriptMachine ⟨1, L, ru⟩ (ReadResult.ok [] :: script) =
      (⟨0, L, ru⟩, script) :=
  ⟨rfl, rfl⟩

end RpiUARTRX
